import Mathlib

/-!
Shallow embedding of the verification engine of the BM credential-checker
repository (src/checker.py and src/mt_client.py), together with theorems
settling the frozen claims about its specification.

Conventions of the embedding:
* Python strings are modelled as Lean `String`; character-level operations
  (`isupper`, `islower`, `isdigit`, `isalnum`, `isalpha`, `lower`, `upper`)
  are modelled by the corresponding `Char` functions, faithful on the ASCII
  inputs the checker handles.
* `key.lower() in text.lower()` (substring membership) is modelled by
  `strHasSub` below.
* An HTTP response is modelled as its body text plus the result of
  `response.json()`: `none` models a `json.JSONDecodeError`, `some j` a
  parsed object accessed through `.get`-style optional fields.
* Network effects are supplied by environments (lists of per-attempt /
  per-round data, or probe oracles); the code under test is translated
  into pure functions over those environments.
-/

/-- Case-insensitive character membership helpers: Python `any(c.isupper() ...)`. -/
def hasUpper (p : List Char) : Bool := p.any Char.isUpper

/-- Python `any(c.islower() for c in password)`. -/
def hasLower (p : List Char) : Bool := p.any Char.isLower

/-- Python `any(c.isdigit() for c in password)`. -/
def hasDigit (p : List Char) : Bool := p.any Char.isDigit

/-- Python `any(not c.isalnum() for c in password)`. -/
def hasSpecial (p : List Char) : Bool := p.any (fun c => !c.isAlphanum)

/-- Whether `needle` is a leading segment of `hay` (character lists). -/
def leadSeg : List Char → List Char → Bool
  | [], _ => true
  | _ :: _, [] => false
  | a :: as, b :: bs => a == b && leadSeg as bs

/-- Whether `needle` occurs as a contiguous substring of `hay`
(Python `needle in hay` on strings), over character lists. -/
def hasSubCh (needle : List Char) : List Char → Bool
  | [] => leadSeg needle []
  | b :: bs => leadSeg needle (b :: bs) || hasSubCh needle bs

/-- Python `needle in hay` on `String`s. -/
def strHasSub (needle hay : String) : Bool := hasSubCh needle.toList hay.toList

/-- Python `s.lower()`. -/
def lowerStr (s : String) : String := String.mk (s.toList.map Char.toLower)

/-- Python `any(key.lower() in err.lower() for key in keys)` — the marker-matching
pattern used throughout `check_account`. -/
def matchesAny (keys : List String) (err : String) : Bool :=
  keys.any (fun k => strHasSub (lowerStr k) (lowerStr err))

/-- The loop in `MTClient._validate_password_format` (mt_client.py lines 96-99):
`password[:i] + char.upper() + password[i+1:]` at the first `i` with
`password[i].isalpha()`; identity when no alphabetic character exists. -/
def capFirstAlpha : List Char → List Char
  | [] => []
  | c :: cs => if c.isAlpha then c.toUpper :: cs else c :: capFirstAlpha cs

/-- Result triple of `MTClient._validate_password_format`:
`(is_valid, modified_password, error_message)`. -/
structure PwCheck where
  isValid : Bool
  modified : List Char
  errorMsg : String
deriving DecidableEq, Repr

/-- `MTClient._validate_password_format` (mt_client.py lines 73-105), translated
branch for branch: length check, special-symbol check, then — when not all of
upper/lower/digit are present — auto-capitalization of the first alphabetic
character when no uppercase exists, followed by the digit requirement. -/
def validatePasswordFormat (password : List Char) : PwCheck :=
  if password.length < 6 then
    ⟨false, password, "Password must be at least 6 characters long"⟩
  else if hasSpecial password then
    ⟨false, password, "Password should not contain special symbols"⟩
  else if !(hasUpper password && hasLower password && hasDigit password) then
    let pw := if !hasUpper password then capFirstAlpha password else password
    if !hasDigit password then
      ⟨false, pw, "Password must contain at least one number"⟩
    else
      ⟨true, pw, ""⟩
  else
    ⟨true, password, ""⟩

example : (validatePasswordFormat "password1".toList).isValid = true := by decide
example : (validatePasswordFormat "password1".toList).modified = "Password1".toList := by decide
example : (validatePasswordFormat "short".toList).isValid = false := by decide
example : (validatePasswordFormat "abc-def1".toList).isValid = false := by decide
example : (validatePasswordFormat "abcdefgh".toList).isValid = false := by decide
example : (validatePasswordFormat "Abcdef1".toList).modified = "Abcdef1".toList := by decide

/-! ## The per-credential worker `check_account` (checker.py lines 475-714)

An attempt's interaction with the outside world is an `AttemptEnv`:
the proxy returned by `get_next_proxy` (`none` models no proxy available),
the behaviour of the one client call the attempt makes (`login` in detailed
mode, `validate_account` in basic mode), and — for the basic-mode
validate-success branch that guards an inner `if check_info:` login
(checker.py lines 655-694) — the behaviour of that inner login call.
`CallResult.exn` models a raised `requests.RequestException`;
`CallResult.resp` a returned `MTResponse` together with
`account_info.get('is_banned', False)`. -/

inductive CallResult
  | exn (msg : String)
  | resp (success : Bool) (error : String) (banned : Bool)
deriving DecidableEq, Repr

structure AttemptEnv where
  proxy : Option String
  call : CallResult
  chainCall : CallResult
deriving DecidableEq, Repr

/-- Observable actions of one `check_account` run: counter increments
(`counter.increment(t)`), network calls by endpoint kind, hand-offs to the
result sink (`save_result(..., t, ...)`), and `os._exit(1)`. -/
inductive Event
  | counterInc (t : String)
  | netCall (endpoint : String)
  | sink (t : String)
  | exitProcess
deriving DecidableEq, Repr

/-- Terminal outcome of one `check_account` run. `banExit` is the
`handle_ban` path, which terminates the whole process via `os._exit(1)`. -/
inductive Outcome
  | invalid (msg : String)
  | hit
  | fail (msg : String)
  | banExit (msg : String)
deriving DecidableEq, Repr

/-- Ban markers checked against a failed login response (checker.py 565-573
and, identically, 661-669). -/
def loginBanKeys : List String :=
  ["Rate limit exceeded", "Invalid API key", "Daily Limit Exceeded", "limit_exceeded",
   "Invalid or inactive API key", "Daily request limit exceeded", "Daily validation limit exceeded"]

/-- Transient markers checked against a failed login response (checker.py 577-584). -/
def loginRetryKeys : List String :=
  ["proxy error", "timeout", "connection refused", "connection reset",
   "no route to host", "Server error", "Internal server error"]

/-- Ban markers checked against a failed validate response (checker.py 624-628). -/
def validateBanKeys : List String :=
  ["Rate limit exceeded", "Invalid API key", "Daily Limit Exceeded", "limit_exceeded"]

/-- Transient markers checked against a failed validate response (checker.py 633-643). -/
def validateRetryKeys : List String :=
  ["proxy error", "timeout", "connection refused", "connection reset",
   "no route to host", "Server error", "Internal server error", "Invalid parameters",
   "Failed to validate account credentials", "Invalid response format"]

/-- The retry loop `for retry_count in range(max_retries)` of `check_account`
(checker.py lines 533-714), one environment entry per iteration.  The list
starts with `max_retries` entries, so the guard `retry_count < max_retries - 1`
is exactly `rest ≠ []`; an exhausted list is the fall-through at lines 711-714
("Max retries exceeded").  Branches follow the source line for line:
 * no proxy → `counter.increment("retry")`, sleep, `continue` (535-538);
 * detailed mode (`check_info`) → direct `client.login` (548-606):
   exception → retry or, on the last attempt, terminal fail (552-561);
   failure → ban markers → `handle_ban` (= ban counter + `os._exit(1)`),
   else transient markers → retry unless last attempt, else terminal fail
   (563-594); success → optional ban tally for a banned account, then hit
   (596-606);
 * basic mode → `client.validate_account` (608-699): the same shape with the
   validate marker lists (609-653); on success the inner `if check_info:`
   login chain (655-694) runs only in detailed mode — which never reaches
   this branch — else terminal hit (695-699). -/
def checkLoop (checkInfo : Bool) : List AttemptEnv → Outcome × List Event
  | [] => (.fail "Max retries exceeded", [.counterInc "fail", .sink "fail"])
  | e :: rest =>
    match e.proxy with
    | none =>
      let r := checkLoop checkInfo rest
      (r.1, .counterInc "retry" :: r.2)
    | some _ =>
      if checkInfo then
        match e.call with
        | .exn msg =>
          if rest.isEmpty then
            (.fail msg, [.netCall "login", .counterInc "fail", .sink "fail"])
          else
            let r := checkLoop checkInfo rest
            (r.1, .netCall "login" :: .counterInc "retry" :: r.2)
        | .resp success error banned =>
          if success = false then
            if matchesAny loginBanKeys error then
              (.banExit error, [.netCall "login", .counterInc "ban", .exitProcess])
            else if matchesAny loginRetryKeys error && !rest.isEmpty then
              let r := checkLoop checkInfo rest
              (r.1, .netCall "login" :: .counterInc "retry" :: r.2)
            else
              (.fail error, [.netCall "login", .counterInc "fail", .sink "fail"])
          else
            (.hit, .netCall "login" ::
              ((if banned then [.counterInc "ban"] else []) ++ [.counterInc "hit", .sink "hit"]))
      else
        match e.call with
        | .exn msg =>
          if rest.isEmpty then
            (.fail msg, [.netCall "validate", .counterInc "fail", .sink "fail"])
          else
            let r := checkLoop checkInfo rest
            (r.1, .netCall "validate" :: .counterInc "retry" :: r.2)
        | .resp success error _ =>
          if success = false then
            if matchesAny validateBanKeys error then
              (.banExit error, [.netCall "validate", .counterInc "ban", .exitProcess])
            else if matchesAny validateRetryKeys error && !rest.isEmpty then
              let r := checkLoop checkInfo rest
              (r.1, .netCall "validate" :: .counterInc "retry" :: r.2)
            else
              (.fail error, [.netCall "validate", .counterInc "fail", .sink "fail"])
          else
            if checkInfo then
              match e.chainCall with
              | .exn msg =>
                (.fail msg, [.netCall "validate", .netCall "login", .counterInc "fail", .sink "fail"])
              | .resp s2 err2 banned2 =>
                if s2 = false then
                  if matchesAny loginBanKeys err2 then
                    (.banExit err2,
                      [.netCall "validate", .netCall "login", .counterInc "ban", .exitProcess])
                  else
                    (.fail err2,
                      [.netCall "validate", .netCall "login", .counterInc "fail", .sink "fail"])
                else
                  (.hit, .netCall "validate" :: .netCall "login" ::
                    ((if banned2 then [.counterInc "ban"] else []) ++
                      [.counterInc "hit", .sink "hit"]))
            else
              (.hit, [.netCall "validate", .counterInc "hit", .sink "hit"])

/-- `check_account` (checker.py lines 475-714): the local password-format
pre-check (522-531) — on failure `counter.increment("invalid")` and
`save_result(..., "fail", ...)` with no network call — then the retry loop. -/
def checkAccount (checkInfo : Bool) (password : List Char) (envs : List AttemptEnv) :
    Outcome × List Event :=
  let chk := validatePasswordFormat password
  if chk.isValid = false then
    (.invalid chk.errorMsg, [.counterInc "invalid", .sink "fail"])
  else
    checkLoop checkInfo envs

/-- Number of occurrences of one event in a trace. -/
def countEv (e : Event) : List Event → Nat
  | [] => 0
  | x :: xs => (if x = e then 1 else 0) + countEv e xs

/-- Number of network calls (of either endpoint) in a trace. -/
def countNetCalls : List Event → Nat
  | [] => 0
  | .netCall _ :: xs => countNetCalls xs + 1
  | _ :: xs => countNetCalls xs

example :
    checkAccount false "abcdef1".toList [⟨some "p:1", .resp true "" false, .exn "x"⟩]
      = (.hit, [.netCall "validate", .counterInc "hit", .sink "hit"]) := by decide

example :
    checkAccount true "abcdef1".toList [⟨some "p:1", .resp true "" false, .exn "x"⟩]
      = (.hit, [.netCall "login", .counterInc "hit", .sink "hit"]) := by decide

example :
    checkAccount false "abcdef1".toList
      [⟨some "p:1", .resp false "Invalid API key" false, .exn "x"⟩]
      = (.banExit "Invalid API key",
          [.netCall "validate", .counterInc "ban", .exitProcess]) := by decide

example :
    (checkAccount false "abcdef1".toList
      [⟨some "p:1", .resp false "proxy error" false, .exn "x"⟩,
       ⟨some "p:2", .resp true "" false, .exn "x"⟩]).1 = .hit := by decide

example :
    checkAccount false "bad".toList [⟨some "p:1", .resp true "" false, .exn "x"⟩]
      = (.invalid "Password must be at least 6 characters long",
          [.counterInc "invalid", .sink "fail"]) := by decide

/-! ## The client `MTClient.validate_account` response classification
(mt_client.py lines 313-362) -/

/-- Fields of a parsed JSON body, accessed in the source through
`json_response.get(...)`; absent keys are `none`. -/
structure JsonVal where
  success : Option Bool := none
  errorCode : Option Int := none
  message : Option String := none
  status : Option String := none
deriving DecidableEq, Repr

/-- An HTTP response: raw body text plus the result of `response.json()`
(`none` models a `json.JSONDecodeError`). -/
structure HttpResp where
  text : String
  json : Option JsonVal
deriving DecidableEq, Repr

/-- Ban markers of `validate_account` (mt_client.py 317-321), checked in order
against the lowercased body; the first match is returned as the error. -/
def clientValidateBanKeys : List String :=
  ["limit_exceeded", "Invalid or inactive API key", "Invalid API key"]

/-- Retry markers of `validate_account` (mt_client.py 327-330). -/
def clientValidateRetryKeys : List String :=
  ["Server timeout error", "Internal server error"]

/-- One step of `validate_account` after `_make_request_with_retry` returned a
response: either the `MTResponse` the function returns, or — on a
`JSONDecodeError` with `_switch_server()` succeeding — the self-recursion
`return self.validate_account(username, password)` (mt_client.py 357-360). -/
inductive VStep
  | ret (success : Bool) (error : String)
  | recurse
deriving DecidableEq, Repr

/-- The classification body of `MTClient.validate_account`
(mt_client.py lines 313-362), branch for branch.  `switchOk` is the result of
the `_switch_server()` call made on a `JSONDecodeError`.  Exceptions raised
inside the `try` (the "Invalid parameters", "Failed to validate" and
"Invalid response format" paths) are caught by the function's own
`except requests.RequestException` handler (line 364-365), which turns them
into a returned `MTResponse` with error `"Request error: " + str(e)`. -/
def classifyValidate (r : HttpResp) (switchOk : Bool) : VStep :=
  let lowTxt := lowerStr r.text
  match clientValidateBanKeys.find? (fun k => strHasSub (lowerStr k) lowTxt) with
  | some k => .ret false k
  | none =>
    if clientValidateRetryKeys.any (fun k => strHasSub (lowerStr k) lowTxt) then
      .ret false "Server error - please retry"
    else
      match r.json with
      | some j =>
        if j.success = some true then
          .ret true ""
        else if j.errorCode = some 401 then
          .ret false (j.message.getD "Authorization failed")
        else if j.message = some "Invalid parameters" then
          .ret false "Request error: Invalid parameters - retrying with new proxy"
        else if j.message.getD "Unknown error" = "Failed to validate account credentials" then
          .ret false "Request error: Failed to validate - retrying with new proxy"
        else
          .ret false (j.message.getD "Unknown error")
      | none =>
        if switchOk then
          .recurse
        else
          .ret false "Request error: Invalid response format - retrying with new proxy"

/-- One round of the (possibly recursing) `validate_account` call: the
response obtained for this round's request, and what `_switch_server()`
would report if invoked. -/
structure VRound where
  resp : HttpResp
  switchOk : Bool
deriving Repr

/-- Fuel-bounded run of the `validate_account` recursion chain
(mt_client.py 357-360): each round issues at least one network request
(`_make_request_with_retry` may issue up to three; one is counted, so the
count below is a lower bound on requests).  Returns the final `MTResponse`
when the chain terminates (`none` when fuel or the environment runs out
mid-chain) together with the number of requests issued. -/
def validateAccountFuel : Nat → List VRound → Option (Bool × String) × Nat
  | 0, _ => (none, 0)
  | _ + 1, [] => (none, 0)
  | fuel + 1, r :: rest =>
    match classifyValidate r.resp r.switchOk with
    | .ret s e => (some (s, e), 1)
    | .recurse =>
      let q := validateAccountFuel fuel rest
      (q.1, q.2 + 1)

example :
    classifyValidate ⟨"Rate limit exceeded", none⟩ false
      = .ret false "Request error: Invalid response format - retrying with new proxy" := by
  decide

example : classifyValidate ⟨"Invalid API key", none⟩ false = .ret false "Invalid API key" := by
  decide

example : classifyValidate ⟨"error: limit_exceeded", none⟩ true
    = .ret false "limit_exceeded" := by decide

example : classifyValidate ⟨"{}", some { success := some true }⟩ false = .ret true "" := by
  decide

example : classifyValidate ⟨"<<<garbage>>>", none⟩ true = .recurse := by decide

/-! ## The endpoint registry: `_test_server`, `_fetch_available_servers`,
`_switch_server` (mt_client.py lines 107-172) -/

/-- An entry of the dynamic server list from `https://mtchecker.info/status/json`:
`{name, uptime_percentage}`. The numeric percentage is modelled as `Int`. -/
structure ServerEntry where
  name : String
  uptime : Int
deriving DecidableEq, Repr

/-- `MTClient.BACKUP_SERVERS` (mt_client.py lines 52-56). -/
def backupServers : List String :=
  ["https://mtchk-sg.onrender.com", "https://mtchk-sg-bak.onrender.com",
   "https://mtchk-m.onrender.com"]

/-- `MTClient._fetch_available_servers` (mt_client.py 107-121): keep servers
with positive uptime, sorted by uptime percentage in descending order
(a stable sort, like Python's `sorted(..., reverse=True)`). -/
def fetchAvailableServers (raw : List ServerEntry) : List ServerEntry :=
  (raw.filter (fun s => 0 < s.uptime)).insertionSort (fun a b => b.uptime ≤ a.uptime)

/-- A ping response for `_test_server`: body text and parsed JSON, `none` for
an unparseable body.  The probe oracle maps a URL to `none` when the `GET
{url}/ping` request itself raises. -/
structure PingResp where
  text : String
  json : Option JsonVal
deriving DecidableEq, Repr

/-- `MTClient._test_server` (mt_client.py 123-136): false on a request
exception; false if the body contains the suspension marker (checked
case-sensitively); otherwise the JSON payload must be exactly
`status == "ok"` and `message == "pong"`. -/
def testServer (net : String → Option PingResp) (url : String) : Bool :=
  match net url with
  | none => false
  | some r =>
    if strHasSub "This service has been suspended" r.text then
      false
    else
      match r.json with
      | none => false
      | some j => j.status == some "ok" && j.message == some "pong"

/-- Scan a candidate list in order, skipping entries matching `skip`,
probing the rest until one tests healthy; also counts the probes made.
This is the shape of both `for` loops in `_switch_server`
(mt_client.py 160-163 and 167-170). -/
def tryList (test : String → Bool) (skip : String → Bool) : List String → Option String × Nat
  | [] => (none, 0)
  | s :: rest =>
    if skip s then
      tryList test skip rest
    else if test s then
      (some s, 1)
    else
      let q := tryList test skip rest
      (q.1, q.2 + 1)

/-- `MTClient._switch_server` (mt_client.py 153-172): probe the current base
URL first and return `false` (no switch) if it is healthy; otherwise probe the
static backup servers other than the current URL in order, switching to the
first healthy one; otherwise probe the dynamically fetched candidates (in
their descending-uptime order) that are neither the current URL nor a static
backup, switching to the first healthy one; otherwise return `false` with the
base URL unchanged.  `test` stands for `self._test_server`; the result is
`(switched, new base_url, number of candidate probes after the initial
current-endpoint probe)`; a successful switch runs `_update_base_url`,
modelled by the returned URL. -/
def switchServer (test : String → Bool) (fetched : List ServerEntry) (cur : String) :
    Bool × String × Nat :=
  if test cur then
    (false, cur, 0)
  else
    let b := tryList test (fun s => s == cur) backupServers
    match b.1 with
    | some s => (true, s, b.2)
    | none =>
      let d := tryList test (fun s => s == cur || decide (s ∈ backupServers))
        ((fetchAvailableServers fetched).map ServerEntry.name)
      match d.1 with
      | some s => (true, s, b.2 + d.2)
      | none => (false, cur, b.2 + d.2)

example :
    switchServer (fun s => s == "https://mtchk-sg.onrender.com") [] "https://mtfastapi.pro"
      = (true, "https://mtchk-sg.onrender.com", 1) := by decide

example :
    switchServer (fun s => s == "https://mtfastapi.pro") [] "https://mtfastapi.pro"
      = (false, "https://mtfastapi.pro", 0) := by decide

example :
    switchServer (fun s => s == "https://dyn.example")
      [⟨"https://dyn.example", 90⟩, ⟨"https://down.example", 0⟩] "https://mtfastapi.pro"
      = (true, "https://dyn.example", 4) := by decide

lemma countEv_append (e : Event) (xs ys : List Event) :
    countEv e (xs ++ ys) = countEv e xs + countEv e ys := by
  induction xs with
  | nil => simp [countEv]
  | cons a xs ih => simp [countEv, ih]; omega

lemma checkLoop_detailed_no_validate (envs : List AttemptEnv) :
    countEv (.netCall "validate") (checkLoop true envs).2 = 0 := by
  induction envs with
  | nil => simp [checkLoop, countEv]
  | cons e rest ih =>
    obtain ⟨proxy, call, chain⟩ := e
    cases proxy with
    | none => simp [checkLoop, countEv, ih]
    | some u =>
      cases call with
      | exn msg =>
        by_cases hr : rest.isEmpty <;> simp [checkLoop, hr, countEv, ih]
      | resp success error banned =>
        cases success with
        | true => cases banned <;> simp [checkLoop, countEv, countEv_append]
        | false =>
          by_cases hb : matchesAny loginBanKeys error
          · simp [checkLoop, hb, countEv]
          · by_cases hr : matchesAny loginRetryKeys error && !rest.isEmpty
            · simp [checkLoop, hb, hr, countEv, ih]
            · simp [checkLoop, hb, hr, countEv]

lemma checkLoop_sink_not_invalid (ci : Bool) (envs : List AttemptEnv) :
    Event.sink "invalid" ∉ (checkLoop ci envs).2 := by
  induction envs with
  | nil => simp [checkLoop]
  | cons e rest ih =>
    obtain ⟨proxy, call, chain⟩ := e
    cases proxy with
    | none => simp [checkLoop, ih]
    | some u =>
      cases ci with
      | true =>
        cases call with
        | exn msg =>
          by_cases hr : rest.isEmpty <;> simp [checkLoop, hr, ih]
        | resp success error banned =>
          cases success with
          | true => cases banned <;> simp [checkLoop]
          | false =>
            by_cases hb : matchesAny loginBanKeys error
            · simp [checkLoop, hb]
            · by_cases hr : matchesAny loginRetryKeys error && !rest.isEmpty
              · simp [checkLoop, hb, hr, ih]
              · simp [checkLoop, hb, hr]
      | false =>
        cases call with
        | exn msg =>
          by_cases hr : rest.isEmpty <;> simp [checkLoop, hr, ih]
        | resp success error banned =>
          cases success with
          | true =>
            simp only [checkLoop]
            cases chain with
            | exn m2 => simp
            | resp s2 e2 b2 =>
              cases s2 with
              | true => cases b2 <;> simp
              | false =>
                by_cases hb2 : matchesAny loginBanKeys e2 <;> simp [hb2]
          | false =>
            by_cases hb : matchesAny validateBanKeys error
            · simp [checkLoop, hb]
            · by_cases hr : matchesAny validateRetryKeys error && !rest.isEmpty
              · simp [checkLoop, hb, hr, ih]
              · simp [checkLoop, hb, hr]

lemma checkLoop_transient_step (u err : String) (b : Bool) (c2 : CallResult)
    (rest : List AttemptEnv)
    (hb : matchesAny validateBanKeys err = false)
    (hr : matchesAny validateRetryKeys err = true) (hne : rest ≠ []) :
    checkLoop false (⟨some u, .resp false err b, c2⟩ :: rest)
      = ((checkLoop false rest).1,
         .netCall "validate" :: .counterInc "retry" :: (checkLoop false rest).2) := by
  cases rest with
  | nil => exact absurd rfl hne
  | cons a l => simp [checkLoop, hb, hr]

lemma checkLoop_transient (u err : String) (b : Bool) (c2 : CallResult)
    (hb : matchesAny validateBanKeys err = false)
    (hr : matchesAny validateRetryKeys err = true) :
    ∀ n, (checkLoop false (List.replicate (n + 1) ⟨some u, .resp false err b, c2⟩)).1
          = .fail err ∧
      countEv (.counterInc "retry")
        (checkLoop false (List.replicate (n + 1) ⟨some u, .resp false err b, c2⟩)).2 = n ∧
      countEv (.counterInc "fail")
        (checkLoop false (List.replicate (n + 1) ⟨some u, .resp false err b, c2⟩)).2 = 1 := by
  intro n
  induction n with
  | zero => simp [checkLoop, hb, hr, countEv]
  | succ k ih =>
    rw [List.replicate_succ, checkLoop_transient_step u err b c2 _ hb hr (by simp)]
    simp [countEv, ih.1, ih.2.1, ih.2.2]
    omega

lemma checkLoop_noProxy (ci : Bool) (c c2 : CallResult) :
    ∀ n, checkLoop ci (List.replicate n ⟨none, c, c2⟩)
      = (.fail "Max retries exceeded",
         List.replicate n (.counterInc "retry") ++ [.counterInc "fail", .sink "fail"]) := by
  intro n
  induction n with
  | zero => simp [checkLoop]
  | succ k ih => simp [List.replicate_succ, checkLoop, ih]

lemma countEv_replicate (e : Event) (n : Nat) : countEv e (List.replicate n e) = n := by
  induction n with
  | zero => simp [countEv]
  | succ k ih => simp [List.replicate_succ, countEv, ih]; omega

lemma checkAccount_valid (ci : Bool) (p : List Char) (envs : List AttemptEnv)
    (hp : (validatePasswordFormat p).isValid = true) :
    checkAccount ci p envs = checkLoop ci envs := by
  simp [checkAccount, hp]

lemma checkLoop_ban_validate (u err : String) (b : Bool) (c2 : CallResult)
    (rest : List AttemptEnv) (hb : matchesAny validateBanKeys err = true) :
    checkLoop false (⟨some u, .resp false err b, c2⟩ :: rest)
      = (.banExit err, [.netCall "validate", .counterInc "ban", .exitProcess]) := by
  simp [checkLoop, hb]

/-- The `failover` procedure as the specification words it: if the current
endpoint probes healthy, no switch; otherwise the first healthy static backup
other than the current endpoint; otherwise the first healthy dynamically
fetched candidate (descending uptime) that is neither the current endpoint
nor a static backup; otherwise no switch.  Written from the spec text, to be
compared with `switchServer`, which is written from the source. -/
def failoverSpec (test : String → Bool) (fetched : List ServerEntry) (cur : String) :
    Bool × String :=
  if test cur then
    (false, cur)
  else
    match (backupServers.filter (fun s => !(s == cur))).find? test with
    | some s => (true, s)
    | none =>
      match (((fetchAvailableServers fetched).map ServerEntry.name).filter
              (fun s => !(s == cur || decide (s ∈ backupServers)))).find? test with
      | some s => (true, s)
      | none => (false, cur)

lemma tryList_fst (test skip : String → Bool) :
    ∀ l, (tryList test skip l).1 = (l.filter (fun s => !skip s)).find? test := by
  intro l
  induction l with
  | nil => simp [tryList]
  | cons s rest ih =>
    by_cases hs : skip s
    · simp [tryList, hs, ih]
    · by_cases ht : test s
      · simp [tryList, hs, ht, List.find?]
      · simp [tryList, hs, ht, List.find?, ih]

lemma tryList_found (test skip : String → Bool) :
    ∀ l s n, tryList test skip l = (some s, n) → test s = true := by
  intro l
  induction l with
  | nil => intro s n h; simp [tryList] at h
  | cons a rest ih =>
    intro s n h
    by_cases hs : skip a
    · exact ih s n (by simpa [tryList, hs] using h)
    · by_cases ht : test a
      · simp [tryList, hs, ht] at h
        exact h.1 ▸ ht
      · simp only [tryList, hs, ht, if_false, if_neg, Bool.false_eq_true] at h
        exact ih s (tryList test skip rest).2 (by
          rw [Prod.ext_iff] at h ⊢
          exact ⟨h.1, rfl⟩)

lemma switchServer_spec_eq (test : String → Bool) (fetched : List ServerEntry) (cur : String) :
    ((switchServer test fetched cur).1, (switchServer test fetched cur).2.1)
      = failoverSpec test fetched cur := by
  unfold switchServer failoverSpec
  by_cases hc : test cur
  · simp [hc]
  · simp only [hc, if_false]
    rw [← tryList_fst test (fun s => s == cur) backupServers,
      ← tryList_fst test (fun s => s == cur || decide (s ∈ backupServers))]
    cases hb : (tryList test (fun s => s == cur) backupServers).1 with
    | some s => simp [hb]
    | none =>
      cases hd : (tryList test (fun s => s == cur || decide (s ∈ backupServers))
          ((fetchAvailableServers fetched).map ServerEntry.name)).1 with
      | some s => simp [hb, hd]
      | none => simp [hb, hd]

lemma switchServer_switched (test : String → Bool) (fetched : List ServerEntry) (cur : String)
    (h : (switchServer test fetched cur).1 = true) :
    test (switchServer test fetched cur).2.1 = true := by
  unfold switchServer at h ⊢
  by_cases hc : test cur
  · simp [hc] at h
  · simp only [hc, if_false] at h ⊢
    rcases hb : tryList test (fun s => s == cur) backupServers with ⟨ob, nb⟩
    cases ob with
    | some s =>
      simp [hb]
      exact tryList_found _ _ _ _ _ hb
    | none =>
      rcases hd : tryList test (fun s => s == cur || decide (s ∈ backupServers))
          ((fetchAvailableServers fetched).map ServerEntry.name) with ⟨od, nd⟩
      cases od with
      | some s =>
        simp [hb, hd]
        exact tryList_found _ _ _ _ _ hd
      | none => simp [hb, hd] at h

lemma testServer_char (net : String → Option PingResp) (url : String) :
    testServer net url = true ↔
      ∃ r, net url = some r ∧
        strHasSub "This service has been suspended" r.text = false ∧
        ∃ j, r.json = some j ∧ j.status = some "ok" ∧ j.message = some "pong" := by
  unfold testServer
  cases hn : net url with
  | none => simp
  | some r =>
    by_cases hs : strHasSub "This service has been suspended" r.text
    · simp [hs]
    · cases hj : r.json with
      | none => simp [hs, hj]
      | some j => simp [hs, hj, Bool.and_eq_true, beq_iff_eq]

def advRound : VRound := ⟨⟨"<<<garbage>>>", none⟩, true⟩

lemma classify_adv : classifyValidate advRound.resp advRound.switchOk = .recurse := by decide

lemma validateAccountFuel_adv :
    ∀ n, validateAccountFuel n (List.replicate n advRound) = (none, n) := by
  intro n
  induction n with
  | zero => simp [validateAccountFuel]
  | succ k ih => simp [List.replicate_succ, validateAccountFuel, classify_adv, ih]

lemma pw_invalid_of (p : List Char)
    (h : p.length < 6 ∨ hasSpecial p = true ∨ hasDigit p = false) :
    (validatePasswordFormat p).isValid = false := by
  unfold validatePasswordFormat
  rcases h with h | h | h
  · simp [h]
  · split_ifs <;> simp_all [hasDigit]
  · split_ifs <;> simp_all [hasUpper, hasLower, hasDigit]

lemma pw_modified_noUpper (p : List Char)
    (h1 : (validatePasswordFormat p).isValid = true) (h3 : hasUpper p = false) :
    (validatePasswordFormat p).modified = capFirstAlpha p := by
  unfold validatePasswordFormat at h1 ⊢
  split_ifs at h1 ⊢ <;> simp_all

lemma capFirstAlpha_spec (p : List Char) (h : p.any Char.isAlpha = true) :
    ∃ i, i < p.length ∧ (p.getD i 'a').isAlpha = true ∧
      (∀ j, j < i → (p.getD j 'a').isAlpha = false) ∧
      capFirstAlpha p = p.set i ((p.getD i 'a').toUpper) := by
  induction p with
  | nil => simp at h
  | cons c cs ih =>
    by_cases hc : c.isAlpha
    · refine ⟨0, by simp, by simpa using hc, by omega, ?_⟩
      simp [capFirstAlpha, hc]
    · have h' : cs.any Char.isAlpha = true := by
        simp [hc] at h; simpa using h
      obtain ⟨i, hi, ha, hfirst, heq⟩ := ih h'
      refine ⟨i + 1, by simpa using hi, by simpa using ha, ?_, ?_⟩
      · intro j hj
        cases j with
        | zero => simpa using hc
        | succ k => simpa using hfirst k (by omega)
      · simp [capFirstAlpha, hc, heq]

lemma checkAccount_sink_not_invalid (ci : Bool) (p : List Char) (envs : List AttemptEnv) :
    Event.sink "invalid" ∉ (checkAccount ci p envs).2 := by
  cases hv : (validatePasswordFormat p).isValid
  · simp [checkAccount, hv]
  · rw [checkAccount_valid ci p envs hv]
    exact checkLoop_sink_not_invalid ci envs

/-! ## Claims -/

/-- C3 — confirmed: for every credential whose password is shorter than 6
characters, contains a non-alphanumeric character, or contains no digit, the
format pre-check rejects it, `check_account`'s outcome is `Invalid`, and zero
network calls are made for that credential whatever the environment holds:
the format failure short-circuits all retries. -/
theorem c3_format_precheck (p : List Char) (ci : Bool) (envs : List AttemptEnv)
    (h : p.length < 6 ∨ hasSpecial p = true ∨ hasDigit p = false) :
    (validatePasswordFormat p).isValid = false ∧
    (checkAccount ci p envs).1 = .invalid (validatePasswordFormat p).errorMsg ∧
    countNetCalls (checkAccount ci p envs).2 = 0 := by
  have hv := pw_invalid_of p h
  refine ⟨hv, ?_, ?_⟩ <;> simp [checkAccount, hv, countNetCalls]

/-- Witness for C3 at password "ab1" with an environment that would answer
success: the outcome is still `Invalid` and no network call happens. -/
theorem c3_format_precheck_witness :
    ("ab1".toList.length < 6 ∨ hasSpecial "ab1".toList = true ∨ hasDigit "ab1".toList = false) ∧
    ((validatePasswordFormat "ab1".toList).isValid = false ∧
     (checkAccount false "ab1".toList
        [⟨some "p:1", .resp true "" false, .exn ""⟩]).1
        = .invalid (validatePasswordFormat "ab1".toList).errorMsg ∧
     countNetCalls (checkAccount false "ab1".toList
        [⟨some "p:1", .resp true "" false, .exn ""⟩]).2 = 0) :=
  ⟨by decide, c3_format_precheck "ab1".toList false
    [⟨some "p:1", .resp true "" false, .exn ""⟩] (by decide)⟩

/-- C5 — confirmed: for every password that passes the format policy, contains
an alphabetic character, and contains no uppercase letter, the recorded
(normalized) password is the original with exactly its first alphabetic
character capitalized: same length, that position uppercased, every other
position unchanged. -/
theorem c5_autocapitalize (p : List Char)
    (h1 : (validatePasswordFormat p).isValid = true)
    (h2 : p.any Char.isAlpha = true)
    (h3 : hasUpper p = false) :
    ∃ i, i < p.length ∧ (p.getD i 'a').isAlpha = true ∧
      (∀ j, j < i → (p.getD j 'a').isAlpha = false) ∧
      (validatePasswordFormat p).modified = p.set i ((p.getD i 'a').toUpper) ∧
      (validatePasswordFormat p).modified.length = p.length ∧
      ∀ j, j ≠ i → (validatePasswordFormat p).modified.getD j 'a' = p.getD j 'a' := by
  have hmod := pw_modified_noUpper p h1 h3
  obtain ⟨i, hi, ha, hfirst, heq⟩ := capFirstAlpha_spec p h2
  refine ⟨i, hi, ha, hfirst, hmod.trans heq, ?_, ?_⟩
  · rw [hmod, heq]; simp
  · intro j hj
    rw [hmod, heq]
    simp [List.getD, List.getElem?_set_ne (Ne.symm hj)]

/-- Witness for C5 at password "abcde1": the normalized password is
"Abcde1", i.e. position 0 capitalized and the rest untouched. -/
theorem c5_autocapitalize_witness :
    (validatePasswordFormat "abcde1".toList).isValid = true ∧
    "abcde1".toList.any Char.isAlpha = true ∧
    hasUpper "abcde1".toList = false ∧
    ∃ i, i < "abcde1".toList.length ∧
      ("abcde1".toList.getD i 'a').isAlpha = true ∧
      (∀ j, j < i → ("abcde1".toList.getD j 'a').isAlpha = false) ∧
      (validatePasswordFormat "abcde1".toList).modified
        = "abcde1".toList.set i (("abcde1".toList.getD i 'a').toUpper) ∧
      (validatePasswordFormat "abcde1".toList).modified.length = "abcde1".toList.length ∧
      ∀ j, j ≠ i → (validatePasswordFormat "abcde1".toList).modified.getD j 'a'
        = "abcde1".toList.getD j 'a' :=
  ⟨by decide, by decide, by decide,
    c5_autocapitalize "abcde1".toList (by decide) (by decide) (by decide)⟩

/-- C10 — confirmed: a credential failing the local format pre-check
increments the invalid counter but is handed to the sink as result type
"fail" (it is appended to the fails file), and the sink never receives an
"invalid" result type from any run of `check_account`. -/
theorem c10_invalid_to_fail_sink (ci ci' : Bool) (p p' : List Char)
    (envs envs' : List AttemptEnv)
    (h : (validatePasswordFormat p).isValid = false) :
    checkAccount ci p envs
      = (.invalid (validatePasswordFormat p).errorMsg,
         [.counterInc "invalid", .sink "fail"]) ∧
    Event.sink "invalid" ∉ (checkAccount ci' p' envs').2 := by
  constructor
  · simp [checkAccount, h]
  · exact checkAccount_sink_not_invalid ci' p' envs'

/-- Witness for C10 at password "short" (and an arbitrary second run): the
invalid counter fires, the sink event carries "fail". -/
theorem c10_invalid_to_fail_sink_witness :
    (validatePasswordFormat "short".toList).isValid = false ∧
    (checkAccount true "short".toList []
      = (.invalid (validatePasswordFormat "short".toList).errorMsg,
         [.counterInc "invalid", .sink "fail"]) ∧
     Event.sink "invalid" ∉ (checkAccount false "abcdef1".toList
        [⟨some "p:1", .resp true "" false, .exn ""⟩]).2) :=
  ⟨by decide,
   c10_invalid_to_fail_sink true false "short".toList "abcdef1".toList []
     [⟨some "p:1", .resp true "" false, .exn ""⟩] (by decide)⟩

/-- C1 — counterexample: the claim says a ban-classified (RateLimited)
attempt lets in-flight work drain and never hard-stops mid-request, with the
terminal outcome handed to the result sink before the worker exits (spec
section 4.4).  On the code, `handle_ban` (checker.py 514-520) calls
`os._exit(1)` at once: at this concrete input the trace ends in the
process-exit event and contains no sink hand-off at all. -/
theorem c1_counterexample :
    (checkAccount false "abcdef1".toList
        [⟨some "p:1", .resp false "Daily Limit Exceeded! Limit: 5, Used: 5" false, .exn ""⟩]).2
      = [.netCall "validate", .counterInc "ban", .exitProcess] ∧
    Event.exitProcess ∈ (checkAccount false "abcdef1".toList
        [⟨some "p:1", .resp false "Daily Limit Exceeded! Limit: 5, Used: 5" false, .exn ""⟩]).2 ∧
    ∀ t, Event.sink t ∉ (checkAccount false "abcdef1".toList
        [⟨some "p:1", .resp false "Daily Limit Exceeded! Limit: 5, Used: 5" false, .exn ""⟩]).2 := by
  refine ⟨by decide, by decide, ?_⟩
  intro t
  rw [show (checkAccount false "abcdef1".toList
        [⟨some "p:1", .resp false "Daily Limit Exceeded! Limit: 5, Used: 5" false, .exn ""⟩]).2
      = [.netCall "validate", .counterInc "ban", .exitProcess] from by decide]
  simp

/-- C1 — amended and proved: a ban-classified error makes the worker
increment the ban counter and terminate the entire process immediately via
`os._exit(1)` with a non-zero status.  This is a hard stop, not a drain: the
run ends on the process-exit event, the banned credential's terminal outcome
is never handed to the result sink, and the remaining queued environments are
never consulted (so no new credentials are accepted). -/
theorem c1_ban_hard_stop (p : List Char) (u err : String) (b : Bool) (c2 : CallResult)
    (rest : List AttemptEnv)
    (hp : (validatePasswordFormat p).isValid = true)
    (hb : matchesAny validateBanKeys err = true) :
    checkAccount false p (⟨some u, .resp false err b, c2⟩ :: rest)
      = (.banExit err, [.netCall "validate", .counterInc "ban", .exitProcess]) ∧
    ∀ t, Event.sink t ∉ (checkAccount false p (⟨some u, .resp false err b, c2⟩ :: rest)).2 := by
  have heq : checkAccount false p (⟨some u, .resp false err b, c2⟩ :: rest)
      = (.banExit err, [.netCall "validate", .counterInc "ban", .exitProcess]) := by
    rw [checkAccount_valid false p _ hp]
    exact checkLoop_ban_validate u err b c2 rest hb
  refine ⟨heq, ?_⟩
  intro t
  rw [heq]
  simp

/-- Witness for C1's amended statement at the error "Invalid API key". -/
theorem c1_ban_hard_stop_witness :
    (validatePasswordFormat "abcdef1".toList).isValid = true ∧
    matchesAny validateBanKeys "Invalid API key" = true ∧
    (checkAccount false "abcdef1".toList
        [⟨some "p:1", .resp false "Invalid API key" false, .exn ""⟩]
      = (.banExit "Invalid API key", [.netCall "validate", .counterInc "ban", .exitProcess]) ∧
     ∀ t, Event.sink t ∉ (checkAccount false "abcdef1".toList
        [⟨some "p:1", .resp false "Invalid API key" false, .exn ""⟩]).2) :=
  ⟨by decide, by decide,
   c1_ban_hard_stop "abcdef1".toList "p:1" "Invalid API key" false (.exn "") []
     (by decide) (by decide)⟩

/-- C2 — counterexample: the claim says that when all `max_retries = 100`
attempts end in transient faults, the terminal outcome is Fail with a
"max retries exceeded" reason and the retry counter equals 100.  On the code,
the retry guard is `retry_count < max_retries - 1`, so the 100th transient
fault is not retried: the terminal outcome carries the last fault's message
("proxy error" here, not "Max retries exceeded") and the retry counter
reaches only 99. -/
theorem c2_counterexample :
    (checkAccount false "abcdef1".toList
        (List.replicate 100 ⟨some "p:1", .resp false "proxy error" false, .exn ""⟩)).1
      = .fail "proxy error" ∧
    Outcome.fail "proxy error" ≠ Outcome.fail "Max retries exceeded" ∧
    countEv (.counterInc "retry")
      (checkAccount false "abcdef1".toList
        (List.replicate 100 ⟨some "p:1", .resp false "proxy error" false, .exn ""⟩)).2 = 99 ∧
    (99 : Nat) ≠ 100 := by
  have h := checkLoop_transient "p:1" "proxy error" false (.exn "")
    (by decide) (by decide) 99
  rw [checkAccount_valid false "abcdef1".toList _ (by decide)]
  exact ⟨h.1, by decide, h.2.1, by decide⟩

/-- C2 — amended and proved: when every one of the 100 attempts observes a
transient fault (and no ban marker), the terminal outcome is `Fail` carrying
the last fault's message — the final attempt is not retried — and the retry
counter equals `max_retries - 1 = 99`, while the fail counter fires once.
The "Max retries exceeded" `Fail` arises only on the proxy-unavailable path,
where every iteration skips the network call and the retry counter reaches
the full 100. -/
theorem c2_retry_exhaustion (p u err : String) (b : Bool) (c c2 : CallResult)
    (hp : (validatePasswordFormat p.toList).isValid = true)
    (hb : matchesAny validateBanKeys err = false)
    (hr : matchesAny validateRetryKeys err = true) :
    (checkAccount false p.toList
        (List.replicate 100 ⟨some u, .resp false err b, c2⟩)).1 = .fail err ∧
    countEv (.counterInc "retry")
      (checkAccount false p.toList
        (List.replicate 100 ⟨some u, .resp false err b, c2⟩)).2 = 99 ∧
    countEv (.counterInc "fail")
      (checkAccount false p.toList
        (List.replicate 100 ⟨some u, .resp false err b, c2⟩)).2 = 1 ∧
    (checkAccount false p.toList (List.replicate 100 ⟨none, c, c2⟩)).1
      = .fail "Max retries exceeded" ∧
    countEv (.counterInc "retry")
      (checkAccount false p.toList (List.replicate 100 ⟨none, c, c2⟩)).2 = 100 := by
  have h := checkLoop_transient u err b c2 hb hr 99
  have hn := checkLoop_noProxy false c c2 100
  rw [checkAccount_valid false p.toList
        (List.replicate 100 ⟨some u, .resp false err b, c2⟩) hp,
      checkAccount_valid false p.toList (List.replicate 100 ⟨none, c, c2⟩) hp]
  refine ⟨h.1, h.2.1, h.2.2, ?_, ?_⟩
  · rw [hn]
  · rw [hn]
    simp [countEv_append, countEv_replicate, countEv]

/-- Witness for C2's amended statement at the transient error "proxy error". -/
theorem c2_retry_exhaustion_witness :
    (validatePasswordFormat "abcdef1".toList).isValid = true ∧
    matchesAny validateBanKeys "proxy error" = false ∧
    matchesAny validateRetryKeys "proxy error" = true ∧
    ((checkAccount false "abcdef1".toList
        (List.replicate 100 ⟨some "p:1", .resp false "proxy error" false, .exn ""⟩)).1
      = .fail "proxy error" ∧
     countEv (.counterInc "retry")
       (checkAccount false "abcdef1".toList
         (List.replicate 100 ⟨some "p:1", .resp false "proxy error" false, .exn ""⟩)).2 = 99 ∧
     countEv (.counterInc "fail")
       (checkAccount false "abcdef1".toList
         (List.replicate 100 ⟨some "p:1", .resp false "proxy error" false, .exn ""⟩)).2 = 1 ∧
     (checkAccount false "abcdef1".toList
        (List.replicate 100 ⟨none, .exn "", .exn ""⟩)).1 = .fail "Max retries exceeded" ∧
     countEv (.counterInc "retry")
       (checkAccount false "abcdef1".toList
         (List.replicate 100 ⟨none, .exn "", .exn ""⟩)).2 = 100) := by
  refine ⟨by decide, by decide, by decide, ?_⟩
  exact c2_retry_exhaustion "abcdef1" "p:1" "proxy error" false (.exn "") (.exn "")
    (by decide) (by decide) (by decide)

/-- C4 — counterexample: the claim says that in detailed-info mode every
attempt performs a validate call first and issues login only after validate
succeeds.  On the code (checker.py 548-551), detailed mode calls the login
endpoint directly: at this concrete input the attempt issues exactly one
login call and zero validate calls, yet produces the terminal `Hit`. -/
theorem c4_counterexample :
    checkAccount true "abcdef1".toList [⟨some "p:1", .resp true "" false, .exn ""⟩]
      = (.hit, [.netCall "login", .counterInc "hit", .sink "hit"]) ∧
    countEv (.netCall "validate")
      (checkAccount true "abcdef1".toList [⟨some "p:1", .resp true "" false, .exn ""⟩]).2 = 0 ∧
    countEv (.netCall "login")
      (checkAccount true "abcdef1".toList [⟨some "p:1", .resp true "" false, .exn ""⟩]).2 = 1 := by
  refine ⟨by decide, by decide, by decide⟩

/-- C4 — amended and proved: in detailed-info mode `check_account` never
issues a validate call at all — every attempt goes to the login endpoint
directly.  The validate-then-login chaining block (checker.py 655-694) is
guarded by `if check_info:` inside the basic-mode branch, which only runs
when `check_info` is false, so the chain is unreachable. -/
theorem c4_detailed_mode_login_only (p : List Char) (envs : List AttemptEnv) :
    countEv (.netCall "validate") (checkAccount true p envs).2 = 0 := by
  cases hv : (validatePasswordFormat p).isValid
  · simp [checkAccount, hv, countEv]
  · rw [checkAccount_valid true p envs hv]
    exact checkLoop_detailed_no_validate envs

/-- C6 — counterexample: the claim (and spec Scenario D) says a response
body "Rate limit exceeded" is classified RateLimited with terminal `Banned`.
On the code, none of `validate_account`'s ban markers ("limit_exceeded",
"Invalid or inactive API key", "Invalid API key") matches that body — the
underscored marker does not occur in the spaced phrase — so the body falls
through to the JSON parse, fails, and is returned as a retryable
"Invalid response format" error: the worker retries and the credential can
still end in `Hit`, with no ban and no cancellation at all. -/
theorem c6_counterexample :
    classifyValidate ⟨"Rate limit exceeded", none⟩ false
      = .ret false "Request error: Invalid response format - retrying with new proxy" ∧
    matchesAny validateBanKeys
      "Request error: Invalid response format - retrying with new proxy" = false ∧
    (checkAccount false "abcdef1".toList
      [⟨some "p:1",
        .resp false "Request error: Invalid response format - retrying with new proxy" false,
        .exn ""⟩,
       ⟨some "p:2", .resp true "" false, .exn ""⟩]).1 = .hit ∧
    countEv (.counterInc "ban")
      (checkAccount false "abcdef1".toList
        [⟨some "p:1",
          .resp false "Request error: Invalid response format - retrying with new proxy" false,
          .exn ""⟩,
         ⟨some "p:2", .resp true "" false, .exn ""⟩]).2 = 0 ∧
    countEv (.counterInc "retry")
      (checkAccount false "abcdef1".toList
        [⟨some "p:1",
          .resp false "Request error: Invalid response format - retrying with new proxy" false,
          .exn ""⟩,
         ⟨some "p:2", .resp true "" false, .exn ""⟩]).2 = 1 := by
  refine ⟨by decide, by decide, by decide, by decide, by decide⟩

/-- C6 — amended and proved: when the client's classification of a response
returns one of the ban-marker errors that `check_account`'s own ban list
also matches (such as "Invalid API key" or "limit_exceeded"), the worker
increments the ban counter and terminates the whole process at once via
`os._exit(1)`; the run ends on the process-exit event irrespective of any
remaining queued environments, so no credential enqueued after that point
produces a `Hit`.  The cancellation is this single hard process exit — the
code has no cancellation flag on the ban path. -/
theorem c6_ban_markers (r : HttpResp) (sw : Bool) (k p u : String) (b : Bool)
    (c2 : CallResult) (rest : List AttemptEnv)
    (_hk : classifyValidate r sw = .ret false k)
    (hm : matchesAny validateBanKeys k = true)
    (hp : (validatePasswordFormat p.toList).isValid = true) :
    checkAccount false p.toList (⟨some u, .resp false k b, c2⟩ :: rest)
      = (.banExit k, [.netCall "validate", .counterInc "ban", .exitProcess]) := by
  rw [checkAccount_valid false p.toList _ hp]
  exact checkLoop_ban_validate u k b c2 rest hm

/-- Witness for C6's amended statement at a response body "Invalid API key",
which the client returns as the ban error "Invalid API key", with a nonempty
queue of remaining environments that is never consulted. -/
theorem c6_ban_markers_witness :
    classifyValidate ⟨"Invalid API key", none⟩ false = .ret false "Invalid API key" ∧
    matchesAny validateBanKeys "Invalid API key" = true ∧
    (validatePasswordFormat "abcdef1".toList).isValid = true ∧
    checkAccount false "abcdef1".toList
        [⟨some "p:1", .resp false "Invalid API key" false, .exn ""⟩,
         ⟨some "p:2", .resp true "" false, .exn ""⟩]
      = (.banExit "Invalid API key",
         [.netCall "validate", .counterInc "ban", .exitProcess]) :=
  ⟨by decide, by decide, by decide,
   c6_ban_markers ⟨"Invalid API key", none⟩ false "Invalid API key" "abcdef1" "p:1" false
     (.exn "") [⟨some "p:2", .resp true "" false, .exn ""⟩]
     (by decide) (by decide) (by decide)⟩

/-- C7 — confirmed: `_switch_server` first probes the current endpoint and
performs no switch when it is healthy; otherwise it tries, in order, the
static backup servers excluding the current endpoint, then the dynamically
fetched candidates in descending-uptime order excluding the current endpoint
and the static backups, switching to the first that probes healthy — exactly
the specification-worded `failoverSpec`.  And `_test_server` reports healthy
precisely when the request yields a response whose body lacks the
"This service has been suspended" marker and whose JSON payload is exactly
status "ok" with message "pong". -/
theorem c7_failover_refinement :
    (∀ (test : String → Bool) (fetched : List ServerEntry) (cur : String),
      ((switchServer test fetched cur).1, (switchServer test fetched cur).2.1)
        = failoverSpec test fetched cur) ∧
    (∀ (net : String → Option PingResp) (url : String),
      testServer net url = true ↔
        ∃ r, net url = some r ∧
          strHasSub "This service has been suspended" r.text = false ∧
          ∃ j, r.json = some j ∧ j.status = some "ok" ∧ j.message = some "pong") :=
  ⟨switchServer_spec_eq, testServer_char⟩

/-- C8 — confirmed: if a failover call switched to (restored) a healthy
endpoint, an immediately following failover call probes that now-current
endpoint, finds it healthy, performs zero probes of backup or dynamic
candidates, reports no switch needed, and leaves the active endpoint
unchanged. -/
theorem c8_failover_idempotent (test : String → Bool) (fetched : List ServerEntry)
    (cur : String) (h : (switchServer test fetched cur).1 = true) :
    switchServer test fetched ((switchServer test fetched cur).2.1)
      = (false, (switchServer test fetched cur).2.1, 0) := by
  have ht := switchServer_switched test fetched cur h
  generalize hs : (switchServer test fetched cur).2.1 = s at ht ⊢
  simp [switchServer, ht]

/-- Witness for C8: the primary endpoint probes unhealthy and the first
static backup healthy, so the first call switches to the backup; the second
call is a no-op with zero candidate probes. -/
theorem c8_failover_idempotent_witness :
    (switchServer (fun s => s == "https://mtchk-sg.onrender.com") []
        "https://mtfastapi.pro").1 = true ∧
    switchServer (fun s => s == "https://mtchk-sg.onrender.com") []
        ((switchServer (fun s => s == "https://mtchk-sg.onrender.com") []
          "https://mtfastapi.pro").2.1)
      = (false,
         (switchServer (fun s => s == "https://mtchk-sg.onrender.com") []
           "https://mtfastapi.pro").2.1, 0) :=
  ⟨by decide,
   c8_failover_idempotent (fun s => s == "https://mtchk-sg.onrender.com") []
     "https://mtfastapi.pro" (by decide)⟩

/-- C9 — the code violates the bounded-network invariant the claim states:
on a `JSONDecodeError` with `_switch_server()` succeeding, `validate_account`
re-invokes itself (mt_client.py 357-360) with no attempt counter, so under an
environment where every response body is unparseable and the endpoint health
keeps flapping (each `_switch_server` finds the current endpoint unhealthy
and some other healthy), one single per-credential verification call issues
`n` network requests without terminating, for every `n` — in particular 101
requests, exceeding the `max_retries = 100` budget that bounds the worker's
attempt records.  The spec's own design note §9 marks this recursion as
needing replacement by a bounded loop "to guarantee termination". -/
theorem c9_unbounded_client_recursion :
    (∀ n, validateAccountFuel n (List.replicate n advRound) = (none, n)) ∧
    validateAccountFuel 101 (List.replicate 101 advRound) = (none, 101) ∧
    100 < (validateAccountFuel 101 (List.replicate 101 advRound)).2 := by
  refine ⟨validateAccountFuel_adv, validateAccountFuel_adv 101, ?_⟩
  rw [validateAccountFuel_adv 101]
  decide
